import Mathlib

/-!
Shallow embedding of the EcoLink file-impact analysis pipeline
(`backend/files/tasks.py`: `analyze_file`, `_generate_recommendations`) and the
parts of the data model it touches (`backend/files/models.py`: `FileAsset`,
`Recommendation`).

Modelling conventions:
- Python float arithmetic is embedded as exact rational arithmetic over `ℚ`;
  `int()` (truncation toward zero) is embedded as `pyInt` via `Int.tdiv`.
- The external collaborators (SHA-256 via `hashlib`, MIME sniffing via
  `magic.from_buffer`, the S3 fetch, the Django settings constants, the user
  table) are parameters of the embedded pipeline: an arbitrary hash function, an
  arbitrary MIME function, an optional fetched byte string (`none` models a
  fetch failure, i.e. `botocore.ClientError`), the two regional constants, and
  the list of existing user ids (`User.objects.get` fails exactly when the id is
  absent).
- The Django ORM store is an explicit state `DB`: the `FileAsset` table in
  primary-key order plus the `Recommendation` table. `QuerySet.first()` on an
  unordered queryset orders by primary key, so the duplicate lookup is a `find?`
  over the table in insertion order. Each `objects.create` call is a separate
  write which either commits or raises; there is no enclosing transaction in
  `analyze_file`, so a raised write error leaves all earlier writes committed.
  Write failures are injected by a schedule `failAt : ℕ → Bool` over the write
  sequence (write 0 is the `FileAsset` row, write `1 + j` is the `j`-th
  `Recommendation` row).
- Python's `:.1f` float formatting inside recommendation messages is abstracted
  by the exact-rational rendering `fmt1`; no claim concerns message text.
-/

/-- Leading-segment character match: `leadMatch n h` is true iff `n` is an
initial segment of `h`. Building block for Python's substring operator `in`. -/
def leadMatch : List Char → List Char → Bool
  | [], _ => true
  | _ :: _, [] => false
  | a :: as, b :: bs => a == b && leadMatch as bs

/-- `subMatch n h` is true iff the character list `n` occurs contiguously in
`h`. -/
def subMatch (needle : List Char) : List Char → Bool
  | [] => needle.isEmpty
  | c :: t => leadMatch needle (c :: t) || subMatch needle t

/-- String containment: Python's substring test `needle in hay`, used by
`_generate_recommendations` for the media-type check. -/
def strContains (hay needle : String) : Bool := subMatch needle.toList hay.toList

/-- Python truthiness of a string: `""` is falsy, every other string truthy.
Used for `if file_asset.mime_type and ...`. -/
def pyTruthyStr (s : String) : Bool := !s.isEmpty

/-- Python `int()` applied to an exact rational: truncation toward zero
(`Int.tdiv` is T-division). -/
def pyInt (q : ℚ) : ℤ := q.num.tdiv q.den

/-- `size_gb = size_bytes / (1024 * 1024 * 1024)` (tasks.py line 60). -/
def sizeGbOf (size_bytes : ℕ) : ℚ := (size_bytes : ℚ) / (1024 * 1024 * 1024)

/-- `kwh_estimate = size_gb * settings.REGION_KWH_PER_GB` (tasks.py line 61). -/
def kwhEstimateOf (size_bytes : ℕ) (kwhPerGb : ℚ) : ℚ :=
  sizeGbOf size_bytes * kwhPerGb

/-- `co2_g_estimate = kwh_estimate * settings.REGION_CO2_G_PER_KWH`
(tasks.py line 62). -/
def co2EstimateOf (size_bytes : ℕ) (kwhPerGb co2PerKwh : ℚ) : ℚ :=
  kwhEstimateOf size_bytes kwhPerGb * co2PerKwh

/-- `impact_score = min(100, int((size_gb * 100) + (co2_g_estimate / 1000 * 10)))`
(tasks.py line 65). -/
def impactScoreOf (size_bytes : ℕ) (kwhPerGb co2PerKwh : ℚ) : ℤ :=
  min 100
    (pyInt (sizeGbOf size_bytes * 100 +
      co2EstimateOf size_bytes kwhPerGb co2PerKwh / 1000 * 10))

/-- One row of the `FileAsset` table (models.py). `duplicate_of` stores the id
and the filename of the referenced row (the only two attributes of the foreign
object the pipeline reads: the id for the foreign key, the filename inside the
duplicate message). -/
structure FileAsset where
  id : ℕ
  user : ℕ
  filename : String
  size_bytes : ℕ
  mime_type : Option String
  sha256 : String
  storage_url : String
  duplicate_of : Option (ℕ × String)
  kwh_estimate : ℚ
  co2_g_estimate : ℚ
  impact_score : ℤ
  deriving Repr, DecidableEq

/-- The `size_mb` property: `self.size_bytes / (1024 * 1024)` (models.py). -/
def FileAsset.size_mb (f : FileAsset) : ℚ := (f.size_bytes : ℚ) / (1024 * 1024)

/-- The `size_gb` property: `self.size_bytes / (1024 * 1024 * 1024)`
(models.py). -/
def FileAsset.size_gb (f : FileAsset) : ℚ :=
  (f.size_bytes : ℚ) / (1024 * 1024 * 1024)

/-- One of the dicts produced by `_generate_recommendations`. -/
structure RecItem where
  kind : String
  message : String
  deriving Repr, DecidableEq

/-- Rendering of a rational inside a message string; abstracts Python's `:.1f`
float formatting (message text is outside every claim). -/
def fmt1 (q : ℚ) : String := toString q

/-- `_generate_recommendations(file_asset)` (tasks.py lines 117-155): four
independent checks, in source order, each contributing at most one dict. -/
def generate_recommendations (file_asset : FileAsset) : List RecItem :=
  (match file_asset.duplicate_of with
   | some dup =>
     [⟨"duplicate", "This file is identical to \"" ++ dup.2 ++
        "\". Consider reusing the existing file to save " ++
        fmt1 file_asset.co2_g_estimate ++ "g CO2."⟩]
   | none => []) ++
  (if file_asset.size_mb > 10 then
     [⟨"compress", "This " ++ fmt1 file_asset.size_mb ++
        "MB file could potentially be compressed to reduce storage and transfer energy consumption."⟩]
   else []) ++
  (match file_asset.mime_type with
   | some mt =>
     if pyTruthyStr mt && (strContains mt "video" || strContains mt "audio") then
       (if file_asset.size_mb > 50 then
         [⟨"share_link", "For large media files, consider sharing a streaming link instead of distributing the file directly to reduce bandwidth usage."⟩]
        else [])
     else []
   | none => []) ++
  (if file_asset.size_mb > 100 then
     [⟨"optimize", "This large file (" ++ fmt1 file_asset.size_mb ++
        "MB) has a high environmental impact (" ++
        fmt1 file_asset.co2_g_estimate ++
        "g CO2). Consider optimizing or archiving if not frequently accessed."⟩]
   else [])

/-- The kinds of the generated recommendations, in creation order. -/
def kindsOf (f : FileAsset) : List String :=
  (generate_recommendations f).map RecItem.kind

/-- The media-type guard of the `share_link` check, as evaluated by the source:
`file_asset.mime_type and any(t in file_asset.mime_type for t in ['video', 'audio'])`. -/
def mediaCond (f : FileAsset) : Bool :=
  match f.mime_type with
  | some mt => pyTruthyStr mt && (strContains mt "video" || strContains mt "audio")
  | none => false

/-- One row of the `Recommendation` table (models.py): owning file id, kind,
message. -/
structure RecRecord where
  file : ℕ
  kind : String
  message : String
  deriving Repr, DecidableEq

/-- The closed set of recommendation kinds `Recommendation.RECOMMENDATION_KINDS`
(models.py lines 70-76), value strings only. -/
def RECOMMENDATION_KINDS : List String :=
  ["duplicate", "compress", "share_link", "archive", "optimize"]

/-- The persistent store visible to the pipeline: the `FileAsset` table in
primary-key (= insertion) order, the `Recommendation` table, and the next
primary key to be assigned. -/
structure DB where
  assets : List FileAsset
  recs : List RecRecord
  nextId : ℕ
  deriving Repr, DecidableEq

/-- The failure taxonomy of `analyze_file`: `User.DoesNotExist` (owner missing),
`botocore.ClientError` (object-store fetch failed), and a database write error
(persistence failed). All three are re-raised by the `except` clauses at
tasks.py lines 106-114. -/
inductive AnalyzeError where
  | notFound
  | sourceUnavailable
  | persistenceError
  deriving Repr, DecidableEq

/-- The dict returned by `analyze_file` on success (tasks.py lines 97-104). -/
structure AnalyzeResult where
  file_id : ℕ
  sha256 : String
  mime_type : String
  is_duplicate : Bool
  impact_score : ℤ
  recommendations_count : ℕ
  deriving Repr, DecidableEq

/-- The Django settings the pipeline reads: S3 endpoint plus the two regional
constants. -/
structure Settings where
  endpoint_url : String
  region_kwh_per_gb : ℚ
  region_co2_g_per_kwh : ℚ

/-- `FileAsset.objects.filter(sha256=file_sha256).exclude(user=user).first()`
(tasks.py line 57). `first()` on the unordered queryset orders by primary key,
i.e. scans the table in insertion order. -/
def findDuplicate (assets : List FileAsset) (sha : String) (user_id : ℕ) :
    Option FileAsset :=
  assets.find? (fun a => a.sha256 == sha && a.user != user_id)

/-- The `FileAsset` row built by `FileAsset.objects.create(...)` (tasks.py
lines 71-82), before it is written: fresh primary key, owner, declared size,
sniffed MIME type, fingerprint, storage URL, optional duplicate link, and the
derived impact fields. -/
def mkFileAsset (st : Settings) (db : DB) (user_id : ℕ)
    (bucket key filename : String) (size_bytes : ℕ)
    (file_sha256 mime_type : String) : FileAsset :=
  { id := db.nextId, user := user_id, filename := filename,
    size_bytes := size_bytes,
    mime_type := some mime_type, sha256 := file_sha256,
    storage_url := st.endpoint_url ++ "/" ++ bucket ++ "/" ++ key,
    duplicate_of := (findDuplicate db.assets file_sha256 user_id).map
      (fun d => (d.id, d.filename)),
    kwh_estimate := kwhEstimateOf size_bytes st.region_kwh_per_gb,
    co2_g_estimate :=
      co2EstimateOf size_bytes st.region_kwh_per_gb st.region_co2_g_per_kwh,
    impact_score :=
      impactScoreOf size_bytes st.region_kwh_per_gb st.region_co2_g_per_kwh }

/-- The `for rec in recommendations: Recommendation.objects.create(...)` loop
(tasks.py lines 88-93). Write `i` either fails — raising out of the loop with
every earlier write still committed, since there is no transaction — or appends
one `Recommendation` row. -/
def persistRecs (failAt : ℕ → Bool) (fileId : ℕ) :
    List RecItem → ℕ → DB → Except (AnalyzeError × DB) DB
  | [], _, db => .ok db
  | r :: rs, i, db =>
    if failAt i then .error (.persistenceError, db)
    else persistRecs failAt fileId rs (i + 1)
      { db with recs := db.recs ++ [⟨fileId, r.kind, r.message⟩] }

/-- `analyze_file(user_id, bucket, key, filename, size_bytes)` (tasks.py lines
16-114). Stage order as in the source: user lookup, S3 fetch, fingerprint and
MIME sniff, duplicate lookup, impact arithmetic, `FileAsset` write (write 0),
recommendation generation, one write per recommendation (writes 1..n), success
dict. Every failure propagates as an `AnalyzeError` paired with the store as it
stands at the moment of the failure. -/
def analyze_file (hash mimeOf : List ℕ → String) (st : Settings)
    (users : List ℕ) (fetched : Option (List ℕ)) (failAt : ℕ → Bool)
    (user_id : ℕ) (bucket key filename : String) (size_bytes : ℕ) (db : DB) :
    Except (AnalyzeError × DB) (DB × AnalyzeResult) :=
  if user_id ∈ users then
    match fetched with
    | none => .error (.sourceUnavailable, db)
    | some file_content =>
      let file_sha256 := hash file_content
      let mime_type := mimeOf file_content
      if failAt 0 then .error (.persistenceError, db)
      else
        let file_asset := mkFileAsset st db user_id bucket key filename
          size_bytes file_sha256 mime_type
        let db1 : DB :=
          { db with
            assets := db.assets ++ [file_asset],
            nextId := db.nextId + 1 }
        let recs := generate_recommendations file_asset
        match persistRecs failAt file_asset.id recs 1 db1 with
        | .error e => .error e
        | .ok db2 =>
          .ok (db2,
            { file_id := file_asset.id, sha256 := file_sha256,
              mime_type := mime_type,
              is_duplicate := (findDuplicate db.assets file_sha256 user_id).isSome,
              impact_score := impactScoreOf size_bytes st.region_kwh_per_gb
                st.region_co2_g_per_kwh,
              recommendations_count := recs.length })
  else .error (.notFound, db)

/-! ### Arithmetic facts about the impact estimation -/

/-- Python's `int()` agrees with the floor on non-negative rationals. -/
lemma pyInt_eq_floor {q : ℚ} (h : 0 ≤ q) : pyInt q = ⌊q⌋ := by
  have hnum : 0 ≤ q.num := Rat.num_nonneg.mpr h
  obtain ⟨n, hn⟩ := Int.eq_ofNat_of_zero_le hnum
  rw [pyInt, Rat.floor_def, hn]
  rfl

/-- The size-in-GB conversion is non-negative. -/
lemma sizeGbOf_nonneg (size_bytes : ℕ) : 0 ≤ sizeGbOf size_bytes := by
  unfold sizeGbOf
  positivity

/-- The argument of `int()` inside the impact-score formula is non-negative
whenever both regional constants are. -/
lemma scoreArg_nonneg (size_bytes : ℕ) {k c : ℚ} (hk : 0 ≤ k) (hc : 0 ≤ c) :
    0 ≤ sizeGbOf size_bytes * 100 +
      co2EstimateOf size_bytes k c / 1000 * 10 := by
  have h1 := sizeGbOf_nonneg size_bytes
  have h2 : 0 ≤ co2EstimateOf size_bytes k c :=
    mul_nonneg (mul_nonneg h1 hk) hc
  have h3 : 0 ≤ co2EstimateOf size_bytes k c / 1000 * 10 := by
    have := div_nonneg h2 (by norm_num : (0:ℚ) ≤ 1000)
    linarith
  nlinarith

/-- Claim C1: with non-negative inputs, the impact score computed by
`analyze_file` equals `min(100, floor(sizeGb * 100 + co2GramsEstimate / 1000 * 10))`,
always lies in `[0, 100]`, and evaluates to `0` on the worked example
`size_bytes = 5242880`, `kwhPerGb = 1`, `co2GramsPerKwh = 400`. -/
theorem impact_score_formula_and_bounds (size_bytes : ℕ) (k c : ℚ)
    (hk : 0 ≤ k) (hc : 0 ≤ c) :
    impactScoreOf size_bytes k c =
      min 100 ⌊sizeGbOf size_bytes * 100 +
        co2EstimateOf size_bytes k c / 1000 * 10⌋ ∧
    0 ≤ impactScoreOf size_bytes k c ∧
    impactScoreOf size_bytes k c ≤ 100 ∧
    impactScoreOf 5242880 1 400 = 0 := by
  have hE := scoreArg_nonneg size_bytes hk hc
  have hform : impactScoreOf size_bytes k c =
      min 100 ⌊sizeGbOf size_bytes * 100 +
        co2EstimateOf size_bytes k c / 1000 * 10⌋ := by
    unfold impactScoreOf
    rw [pyInt_eq_floor hE]
  refine ⟨hform, ?_, ?_, ?_⟩
  · rw [hform]
    have : (0:ℤ) ≤ ⌊sizeGbOf size_bytes * 100 +
        co2EstimateOf size_bytes k c / 1000 * 10⌋ := Int.floor_nonneg.mpr hE
    omega
  · unfold impactScoreOf
    exact min_le_left _ _
  · unfold impactScoreOf pyInt co2EstimateOf kwhEstimateOf sizeGbOf
    norm_num
    decide

/-- Witness for the impact-score claim at the spec's worked example. -/
theorem impact_score_formula_and_bounds_witness :
    impactScoreOf 5242880 1 400 =
      min 100 ⌊sizeGbOf 5242880 * 100 +
        co2EstimateOf 5242880 1 400 / 1000 * 10⌋ ∧
    0 ≤ impactScoreOf 5242880 1 400 ∧
    impactScoreOf 5242880 1 400 ≤ 100 ∧
    impactScoreOf 5242880 1 400 = 0 :=
  impact_score_formula_and_bounds 5242880 1 400 (by norm_num) (by norm_num)

/-- Claim C7: with the regional constants fixed and non-negative, the impact
score is monotonically non-decreasing in the declared size. -/
theorem impact_score_monotone (k c : ℚ) (hk : 0 ≤ k) (hc : 0 ≤ c)
    (s1 s2 : ℕ) (hs : s1 ≤ s2) :
    impactScoreOf s1 k c ≤ impactScoreOf s2 k c := by
  have hg : sizeGbOf s1 ≤ sizeGbOf s2 := by
    unfold sizeGbOf
    have hcast : (s1:ℚ) ≤ (s2:ℚ) := Nat.cast_le.mpr hs
    gcongr
  have hE : sizeGbOf s1 * 100 + co2EstimateOf s1 k c / 1000 * 10 ≤
      sizeGbOf s2 * 100 + co2EstimateOf s2 k c / 1000 * 10 := by
    unfold co2EstimateOf kwhEstimateOf
    nlinarith [mul_nonneg (mul_nonneg (sub_nonneg.mpr hg) hk) hc]
  have h1 := scoreArg_nonneg s1 hk hc
  have h2 := scoreArg_nonneg s2 hk hc
  unfold impactScoreOf
  rw [pyInt_eq_floor h1, pyInt_eq_floor h2]
  exact min_le_min le_rfl (Int.floor_le_floor hE)

/-- Witness for the monotonicity claim at concrete sizes 5 MiB and 101 MiB. -/
theorem impact_score_monotone_witness :
    impactScoreOf 5242880 1 400 ≤ impactScoreOf 105906176 1 400 :=
  impact_score_monotone 1 400 (by norm_num) (by norm_num)
    5242880 105906176 (by norm_num)

/-- Claim C8: the energy and CO2 estimates follow the spec's formulas, vanish on
a zero-size file, and scale linearly with the declared size. -/
theorem estimates_formula_zero_linear (k c : ℚ) (s m : ℕ) :
    kwhEstimateOf s k = (s : ℚ) / 2 ^ 30 * k ∧
    co2EstimateOf s k c = kwhEstimateOf s k * c ∧
    kwhEstimateOf 0 k = 0 ∧
    co2EstimateOf 0 k c = 0 ∧
    kwhEstimateOf (m * s) k = (m : ℚ) * kwhEstimateOf s k ∧
    co2EstimateOf (m * s) k c = (m : ℚ) * co2EstimateOf s k c := by
  unfold co2EstimateOf kwhEstimateOf sizeGbOf
  refine ⟨by norm_num, rfl, by norm_num, by norm_num, ?_, ?_⟩ <;>
  · push_cast
    ring

/-! ### Structure of the generated recommendation list -/

/-- A string containing `"video"` or `"audio"` is non-empty, hence truthy. -/
lemma pyTruthyStr_of_contains {mt : String}
    (h : strContains mt "video" = true ∨ strContains mt "audio" = true) :
    pyTruthyStr mt = true := by
  rcases h with h | h
  all_goals
    by_contra hne
    have hempty : mt.isEmpty = true := by
      unfold pyTruthyStr at hne
      simpa using hne
    have hmt : mt = "" := (String.isEmpty_iff mt).mp hempty
    subst hmt
    exact absurd h (by decide)

/-- The media guard holds exactly when the MIME classification is present and
contains `"video"` or `"audio"`. -/
lemma mediaCond_iff (f : FileAsset) :
    mediaCond f = true ↔
      ∃ mt, f.mime_type = some mt ∧
        (strContains mt "video" = true ∨ strContains mt "audio" = true) := by
  unfold mediaCond
  cases h : f.mime_type with
  | none => simp
  | some mt =>
    simp only [Bool.and_eq_true, Bool.or_eq_true, Option.some.injEq]
    constructor
    · rintro ⟨-, hv⟩
      exact ⟨mt, rfl, hv⟩
    · rintro ⟨mt', heq, hv⟩
      subst heq
      exact ⟨pyTruthyStr_of_contains hv, hv⟩

/-- The generated kinds decompose into four independent conditional segments,
in source order. -/
lemma kinds_eq (f : FileAsset) :
    kindsOf f =
      (if f.duplicate_of.isSome then ["duplicate"] else []) ++
      (if f.size_mb > 10 then ["compress"] else []) ++
      (if mediaCond f = true ∧ f.size_mb > 50 then ["share_link"] else []) ++
      (if f.size_mb > 100 then ["optimize"] else []) := by
  simp only [kindsOf, generate_recommendations, List.map_append]
  congr 1
  congr 1
  congr 1
  · cases f.duplicate_of <;> simp
  · split_ifs <;> simp
  · unfold mediaCond
    cases h : f.mime_type with
    | none => simp
    | some mt =>
      by_cases hm : pyTruthyStr mt && (strContains mt "video" || strContains mt "audio") <;>
      by_cases h50 : f.size_mb > 50 <;>
      simp [hm, h50]
  · split_ifs <;> simp

/-- The `size_mb` property as the spec writes it: `size_bytes / 2^20`. -/
lemma size_mb_eq (f : FileAsset) : f.size_mb = (f.size_bytes : ℚ) / 2 ^ 20 := by
  unfold FileAsset.size_mb
  norm_num

/-- Claim C3: each of the four checks fires independently — `duplicate` iff a
duplicate link was found, `compress` iff `size_bytes / 2^20 > 10`, `share_link`
iff the MIME classification contains `"video"` or `"audio"` and
`size_bytes / 2^20 > 50`, `optimize` iff `size_bytes / 2^20 > 100`; and an
11 MiB file with no duplicate and a non-media MIME type yields exactly one
recommendation, of kind `compress`. -/
theorem rec_kinds_characterization (f : FileAsset) :
    ("duplicate" ∈ kindsOf f ↔ f.duplicate_of.isSome = true) ∧
    ("compress" ∈ kindsOf f ↔ 10 < (f.size_bytes : ℚ) / 2 ^ 20) ∧
    ("share_link" ∈ kindsOf f ↔
      (∃ mt, f.mime_type = some mt ∧
        (strContains mt "video" = true ∨ strContains mt "audio" = true)) ∧
      50 < (f.size_bytes : ℚ) / 2 ^ 20) ∧
    ("optimize" ∈ kindsOf f ↔ 100 < (f.size_bytes : ℚ) / 2 ^ 20) ∧
    kindsOf
      { id := 1, user := 1, filename := "report.bin",
        size_bytes := 11 * 2 ^ 20,
        mime_type := some "application/pdf", sha256 := "h", storage_url := "",
        duplicate_of := none, kwh_estimate := 0, co2_g_estimate := 0,
        impact_score := 0 } = ["compress"] := by
  rw [show (f.size_bytes : ℚ) / 2 ^ 20 = f.size_mb from (size_mb_eq f).symm,
    ← mediaCond_iff]
  refine ⟨?_, ?_, ?_, ?_, ?_⟩
  · rw [kinds_eq]
    split_ifs <;> simp_all
  · rw [kinds_eq]
    split_ifs <;> simp_all
  · rw [kinds_eq]
    split_ifs <;> simp_all
  · rw [kinds_eq]
    split_ifs <;> simp_all
  · simp [kindsOf, generate_recommendations, FileAsset.size_mb, pyTruthyStr]
    norm_num

/-- Claim C10: the generator never emits the declared-but-unused kind
`archive`, and every file receives at most four recommendations, at most one of
each generated kind. -/
theorem archive_never_emitted (f : FileAsset) :
    "archive" ∈ RECOMMENDATION_KINDS ∧
    "archive" ∉ kindsOf f ∧
    (generate_recommendations f).length ≤ 4 ∧
    ∀ k, (kindsOf f).count k ≤ 1 := by
  rw [show (generate_recommendations f).length = (kindsOf f).length from
    (List.length_map _ _).symm]
  refine ⟨by decide, ?_⟩
  rw [kinds_eq]
  split_ifs <;>
    exact ⟨by decide, by decide, List.nodup_iff_count_le_one.mp (by decide)⟩

/-! ### Behaviour of the persistence loop -/

/-- When no write fails, the recommendation loop appends exactly one
`Recommendation` row per generated dict, in generation order, and touches
nothing else. -/
lemma persistRecs_noFail {failAt : ℕ → Bool} (h : ∀ j, failAt j = false)
    (fid : ℕ) (rs : List RecItem) (i : ℕ) (db : DB) :
    persistRecs failAt fid rs i db =
      .ok { db with recs := db.recs ++ rs.map (fun r => ⟨fid, r.kind, r.message⟩) } := by
  induction rs generalizing i db with
  | nil => simp [persistRecs]
  | cons r rs ih =>
    rw [persistRecs]
    simp only [h i, Bool.false_eq_true, if_false]
    rw [ih]
    simp

/-- The recommendation loop only appends `Recommendation` rows: the `FileAsset`
table and the id counter are untouched on success. -/
lemma persistRecs_ok_state {failAt : ℕ → Bool} {fid : ℕ} (rs : List RecItem)
    (i : ℕ) (db db' : DB) (h : persistRecs failAt fid rs i db = .ok db') :
    db'.assets = db.assets ∧ db'.nextId = db.nextId := by
  induction rs generalizing i db with
  | nil =>
    rw [persistRecs] at h
    cases h
    exact ⟨rfl, rfl⟩
  | cons r rs ih =>
    rw [persistRecs] at h
    by_cases hf : failAt i
    · simp [hf] at h
    · simp only [hf, Bool.false_eq_true, if_false] at h
      simpa using ih (i + 1) _ h

/-- A failing write inside the recommendation loop raises `persistenceError`
and leaves the `FileAsset` table and the id counter as they were when the loop
started (earlier recommendation rows stay committed). -/
lemma persistRecs_error_state {failAt : ℕ → Bool} {fid : ℕ} (rs : List RecItem)
    (i : ℕ) (db : DB) (e : AnalyzeError) (db' : DB)
    (h : persistRecs failAt fid rs i db = .error (e, db')) :
    e = .persistenceError ∧ db'.assets = db.assets ∧ db'.nextId = db.nextId := by
  induction rs generalizing i db with
  | nil => simp [persistRecs] at h
  | cons r rs ih =>
    rw [persistRecs] at h
    by_cases hf : failAt i
    · simp only [hf, if_true] at h
      cases h
      exact ⟨rfl, rfl, rfl⟩
    · simp only [hf, Bool.false_eq_true, if_false] at h
      simpa using ih (i + 1) _ h

/-- The recommendation loop succeeds exactly when none of its writes is
scheduled to fail. -/
lemma persistRecs_ok_iff {failAt : ℕ → Bool} {fid : ℕ} (rs : List RecItem)
    (i : ℕ) (db : DB) :
    (∃ db', persistRecs failAt fid rs i db = .ok db') ↔
      ∀ j, j < rs.length → failAt (i + j) = false := by
  induction rs generalizing i db with
  | nil => simp [persistRecs]
  | cons r rs ih =>
    rw [persistRecs]
    by_cases hf : failAt i
    · simp only [hf, if_true]
      constructor
      · rintro ⟨db', hdb'⟩
        cases hdb'
      · intro hall
        have := hall 0 (by simp)
        simp [hf] at this
    · simp only [hf, Bool.false_eq_true, if_false]
      rw [ih]
      constructor
      · intro hall j hj
        cases j with
        | zero =>
          simpa using (Bool.eq_false_iff.mpr hf)
        | succ j =>
          have := hall j (by simpa using hj)
          simpa [Nat.add_comm, Nat.add_left_comm, Nat.add_assoc] using this
      · intro hall j hj
        have := hall (j + 1) (by simp only [List.length_cons]; omega)
        simpa [Nat.add_comm, Nat.add_left_comm, Nat.add_assoc] using this

/-- A failure-free run of the pipeline for an existing user: it appends exactly
the new `FileAsset` row and its generated `Recommendation` rows, bumps the id
counter, and returns the summary dict. -/
lemma analyze_noFail (hash mimeOf : List ℕ → String) (st : Settings)
    (users : List ℕ) (failAt : ℕ → Bool) (user_id : ℕ)
    (bucket key filename : String) (size_bytes : ℕ) (db : DB)
    (content : List ℕ)
    (h_user : user_id ∈ users) (hNoFail : ∀ i, failAt i = false) :
    analyze_file hash mimeOf st users (some content) failAt user_id bucket key
      filename size_bytes db =
      .ok
        ({ assets := db.assets ++
             [mkFileAsset st db user_id bucket key filename size_bytes
               (hash content) (mimeOf content)],
           recs := db.recs ++
             (generate_recommendations
               (mkFileAsset st db user_id bucket key filename size_bytes
                 (hash content) (mimeOf content))).map
               (fun r => ⟨db.nextId, r.kind, r.message⟩),
           nextId := db.nextId + 1 },
         { file_id := db.nextId, sha256 := hash content,
           mime_type := mimeOf content,
           is_duplicate := (findDuplicate db.assets (hash content) user_id).isSome,
           impact_score := impactScoreOf size_bytes st.region_kwh_per_gb
             st.region_co2_g_per_kwh,
           recommendations_count :=
             (generate_recommendations
               (mkFileAsset st db user_id bucket key filename size_bytes
                 (hash content) (mimeOf content))).length }) := by
  unfold analyze_file
  rw [if_pos h_user]
  simp only [hNoFail 0, Bool.false_eq_true, if_false]
  rw [show (mkFileAsset st db user_id bucket key filename size_bytes
    (hash content) (mimeOf content)).id = db.nextId from rfl]
  rw [persistRecs_noFail hNoFail]

/-- Claim C4: with sequential (race-free), failure-free runs, the second upload
of identical content by a different owner gets `duplicate_of` set to the first
record, and a third upload by yet another owner links back to the earliest
record with that hash, not to the intermediate duplicate. -/
theorem duplicate_links_to_earliest (hash mimeOf : List ℕ → String)
    (st : Settings) (users : List ℕ) (failAt : ℕ → Bool) (A B D : ℕ)
    (content : List ℕ) (b1 k1 f1 b2 k2 f2 b3 k3 f3 : String)
    (s1 s2 s3 : ℕ) (drecs : List RecRecord) (dnext : ℕ)
    (hA : A ∈ users) (hB : B ∈ users) (hD : D ∈ users)
    (hAB : A ≠ B) (hDA : D ≠ A) (hNoFail : ∀ i, failAt i = false) :
    ∃ db1 r1 db2 r2 db3 r3 a1 a2 a3,
      analyze_file hash mimeOf st users (some content) failAt A b1 k1 f1 s1
        ⟨[], drecs, dnext⟩ = .ok (db1, r1) ∧
      db1.assets = [a1] ∧ a1.user = A ∧ a1.duplicate_of = none ∧
      analyze_file hash mimeOf st users (some content) failAt B b2 k2 f2 s2
        db1 = .ok (db2, r2) ∧
      db2.assets = [a1, a2] ∧ a2.user = B ∧
      a2.duplicate_of = some (a1.id, a1.filename) ∧
      analyze_file hash mimeOf st users (some content) failAt D b3 k3 f3 s3
        db2 = .ok (db3, r3) ∧
      db3.assets = [a1, a2, a3] ∧ a3.user = D ∧
      a3.duplicate_of = some (a1.id, a1.filename) := by
  have hAD : A ≠ D := Ne.symm hDA
  refine ⟨_, _, _, _, _, _, _, _, _,
    analyze_noFail hash mimeOf st users failAt A b1 k1 f1 s1 ⟨[], drecs, dnext⟩
      content hA hNoFail,
    rfl, rfl, rfl,
    analyze_noFail hash mimeOf st users failAt B b2 k2 f2 s2 _
      content hB hNoFail,
    rfl, rfl, ?_,
    analyze_noFail hash mimeOf st users failAt D b3 k3 f3 s3 _
      content hD hNoFail,
    rfl, rfl, ?_⟩
  · simp [mkFileAsset, findDuplicate, hAB]
  · simp [mkFileAsset, findDuplicate, hAD]

/-- Witness for the duplicate-linking claim: three concrete sequential uploads
of the same content by owners 1, 2, 3. -/
theorem duplicate_links_to_earliest_witness :
    ∃ db1 r1 db2 r2 db3 r3 a1 a2 a3,
      analyze_file (fun _ => "h") (fun _ => "m") ⟨"e", 0, 0⟩ [1, 2, 3]
        (some []) (fun _ => false) 1 "b" "k" "f1" 0 ⟨[], [], 0⟩ =
          .ok (db1, r1) ∧
      db1.assets = [a1] ∧ a1.user = 1 ∧ a1.duplicate_of = none ∧
      analyze_file (fun _ => "h") (fun _ => "m") ⟨"e", 0, 0⟩ [1, 2, 3]
        (some []) (fun _ => false) 2 "b" "k" "f2" 0 db1 = .ok (db2, r2) ∧
      db2.assets = [a1, a2] ∧ a2.user = 2 ∧
      a2.duplicate_of = some (a1.id, a1.filename) ∧
      analyze_file (fun _ => "h") (fun _ => "m") ⟨"e", 0, 0⟩ [1, 2, 3]
        (some []) (fun _ => false) 3 "b" "k" "f3" 0 db2 = .ok (db3, r3) ∧
      db3.assets = [a1, a2, a3] ∧ a3.user = 3 ∧
      a3.duplicate_of = some (a1.id, a1.filename) :=
  duplicate_links_to_earliest (fun _ => "h") (fun _ => "m") ⟨"e", 0, 0⟩
    [1, 2, 3] (fun _ => false) 1 2 3 [] "b" "k" "f1" "b" "k" "f2" "b" "k" "f3"
    0 0 0 [] 0 (by decide) (by decide) (by decide) (by decide) (by decide)
    (fun _ => rfl)

/-- Claim C6: on any successful run, the created record's `duplicate_of`, when
set, references a pre-existing record with the same content hash and a
different owner, and never the new record itself; in particular it never
references any record of the uploading owner. -/
theorem dup_ref_invariant (hash mimeOf : List ℕ → String) (st : Settings)
    (users : List ℕ) (failAt : ℕ → Bool) (user_id : ℕ)
    (bucket key filename : String) (size_bytes : ℕ) (db db' : DB)
    (res : AnalyzeResult) (content : List ℕ)
    (h_wf : ∀ a ∈ db.assets, a.id < db.nextId)
    (hrun : analyze_file hash mimeOf st users (some content) failAt user_id
      bucket key filename size_bytes db = .ok (db', res)) :
    ∃ a, db'.assets = db.assets ++ [a] ∧ a.user = user_id ∧
      a.sha256 = hash content ∧
      ∀ i fn, a.duplicate_of = some (i, fn) →
        i ≠ a.id ∧
        ∃ r ∈ db.assets, r.id = i ∧ r.filename = fn ∧
          r.sha256 = a.sha256 ∧ r.user ≠ user_id := by
  unfold analyze_file at hrun
  by_cases hu : user_id ∈ users
  · rw [if_pos hu] at hrun
    by_cases h0 : failAt 0
    · simp [h0] at hrun
    · simp only [h0, Bool.false_eq_true, if_false] at hrun
      rcases hpr : persistRecs failAt
          (mkFileAsset st db user_id bucket key filename size_bytes
            (hash content) (mimeOf content)).id
          (generate_recommendations
            (mkFileAsset st db user_id bucket key filename size_bytes
              (hash content) (mimeOf content))) 1
          { db with
            assets := db.assets ++
              [mkFileAsset st db user_id bucket key filename size_bytes
                (hash content) (mimeOf content)],
            nextId := db.nextId + 1 } with e | db2
      · rw [hpr] at hrun
        simp at hrun
      · rw [hpr] at hrun
        simp only [Except.ok.injEq, Prod.mk.injEq] at hrun
        obtain ⟨hdb', -⟩ := hrun
        subst hdb'
        obtain ⟨hassets, -⟩ := persistRecs_ok_state _ _ _ _ hpr
        refine ⟨mkFileAsset st db user_id bucket key filename size_bytes
          (hash content) (mimeOf content), ?_, rfl, rfl, ?_⟩
        · simpa using hassets
        · intro i fn hdup
          rcases hfd : findDuplicate db.assets (hash content) user_id with _ | d
          · rw [show (mkFileAsset st db user_id bucket key filename size_bytes
              (hash content) (mimeOf content)).duplicate_of =
              (findDuplicate db.assets (hash content) user_id).map
                (fun d => (d.id, d.filename)) from rfl, hfd] at hdup
            simp at hdup
          · rw [show (mkFileAsset st db user_id bucket key filename size_bytes
              (hash content) (mimeOf content)).duplicate_of =
              (findDuplicate db.assets (hash content) user_id).map
                (fun d => (d.id, d.filename)) from rfl, hfd] at hdup
            simp only [Option.map_some', Option.some.injEq, Prod.mk.injEq] at hdup
            obtain ⟨hi, hfn⟩ := hdup
            have hmem := List.mem_of_find?_eq_some hfd
            have hpred := List.find?_some hfd
            simp only [Bool.and_eq_true, beq_iff_eq, bne_iff_ne] at hpred
            obtain ⟨hsha, huser⟩ := hpred
            have hlt := h_wf d hmem
            constructor
            · rw [← hi]
              rw [show (mkFileAsset st db user_id bucket key filename size_bytes
                (hash content) (mimeOf content)).id = db.nextId from rfl]
              omega
            · exact ⟨d, hmem, hi, hfn, by rw [hsha]; rfl, huser⟩
  · rw [if_neg hu] at hrun
    simp at hrun

/-- Witness for the duplicate-reference invariant on a concrete successful
run. -/
theorem dup_ref_invariant_witness :
    ∃ db' res,
      analyze_file (fun _ => "h") (fun _ => "m") ⟨"e", 0, 0⟩ [1] (some [])
        (fun _ => false) 1 "b" "k" "f" 0 ⟨[], [], 0⟩ = .ok (db', res) ∧
      ∃ a, db'.assets = [] ++ [a] ∧ a.user = 1 ∧ a.sha256 = "h" ∧
        ∀ i fn, a.duplicate_of = some (i, fn) →
          i ≠ a.id ∧
          ∃ r ∈ ([] : List FileAsset), r.id = i ∧ r.filename = fn ∧
            r.sha256 = a.sha256 ∧ r.user ≠ 1 :=
  ⟨_, _,
    analyze_noFail (fun _ => "h") (fun _ => "m") ⟨"e", 0, 0⟩ [1]
      (fun _ => false) 1 "b" "k" "f" 0 ⟨[], [], 0⟩ [] (by decide)
      (fun _ => rfl),
    dup_ref_invariant (fun _ => "h") (fun _ => "m") ⟨"e", 0, 0⟩ [1]
      (fun _ => false) 1 "b" "k" "f" 0 ⟨[], [], 0⟩ _ _ [] (by simp)
      (analyze_noFail (fun _ => "h") (fun _ => "m") ⟨"e", 0, 0⟩ [1]
        (fun _ => false) 1 "b" "k" "f" 0 ⟨[], [], 0⟩ [] (by decide)
        (fun _ => rfl))⟩

/-- Claim C5: a 101 MiB video-classified upload whose content duplicates an
existing record of another owner yields exactly four recommendations, created
in the order `duplicate`, `compress`, `share_link`, `optimize`. -/
theorem video_101MiB_duplicate_four_recs :
    ∃ db' res,
      analyze_file (fun _ => "h1") (fun _ => "video/mp4")
        ⟨"e", 1, 400⟩ [1, 2] (some [0]) (fun _ => false) 2 "b" "k" "copy.mp4"
        (101 * 2 ^ 20)
        ⟨[{ id := 7, user := 1, filename := "orig.mp4",
            size_bytes := 101 * 2 ^ 20, mime_type := some "video/mp4",
            sha256 := "h1", storage_url := "", duplicate_of := none,
            kwh_estimate := 0, co2_g_estimate := 0, impact_score := 0 }],
          [], 8⟩ = .ok (db', res) ∧
      db'.recs.map RecRecord.kind =
        ["duplicate", "compress", "share_link", "optimize"] ∧
      res.recommendations_count = 4 := by
  refine ⟨_, _,
    analyze_noFail _ _ _ _ _ 2 "b" "k" "copy.mp4" (101 * 2 ^ 20) _ [0]
      (by decide) (fun _ => rfl), ?_, ?_⟩ <;>
  · norm_num [mkFileAsset, findDuplicate, generate_recommendations,
      FileAsset.size_mb, pyTruthyStr, List.find?_cons,
      show strContains "video/mp4" "video" = true from by decide,
      show ("video/mp4".isEmpty) = false from by decide]

/-- Claim C9: the pipeline fails with `notFound` exactly when the owner is
missing, with `sourceUnavailable` exactly when the object-store fetch fails,
with `persistenceError` exactly when some scheduled write fails, and succeeds
exactly otherwise — every failure is propagated, none is swallowed into a
success result. -/
theorem analyze_error_taxonomy (hash mimeOf : List ℕ → String) (st : Settings)
    (users : List ℕ) (fetched : Option (List ℕ)) (failAt : ℕ → Bool)
    (user_id : ℕ) (bucket key filename : String) (size_bytes : ℕ) (db : DB) :
    (analyze_file hash mimeOf st users fetched failAt user_id bucket key
        filename size_bytes db = .error (.notFound, db) ↔ user_id ∉ users) ∧
    (analyze_file hash mimeOf st users fetched failAt user_id bucket key
        filename size_bytes db = .error (.sourceUnavailable, db) ↔
      user_id ∈ users ∧ fetched = none) ∧
    ((∃ db', analyze_file hash mimeOf st users fetched failAt user_id bucket
        key filename size_bytes db = .error (.persistenceError, db')) ↔
      user_id ∈ users ∧ ∃ c, fetched = some c ∧
        (failAt 0 = true ∨
         ∃ j, j < (generate_recommendations
            (mkFileAsset st db user_id bucket key filename size_bytes
              (hash c) (mimeOf c))).length ∧ failAt (1 + j) = true)) ∧
    ((∃ db' res, analyze_file hash mimeOf st users fetched failAt user_id
        bucket key filename size_bytes db = .ok (db', res)) ↔
      user_id ∈ users ∧ ∃ c, fetched = some c ∧ failAt 0 = false ∧
        ∀ j, j < (generate_recommendations
            (mkFileAsset st db user_id bucket key filename size_bytes
              (hash c) (mimeOf c))).length → failAt (1 + j) = false) := by
  by_cases hu : user_id ∈ users
  · cases fetched with
    | none =>
      unfold analyze_file
      rw [if_pos hu]
      refine ⟨by simp [hu], by simp [hu], by simp, by simp⟩
    | some c =>
      unfold analyze_file
      rw [if_pos hu]
      by_cases h0 : failAt 0
      · simp only [h0, if_true]
        refine ⟨by simp [hu], by simp [hu], ?_, by simp [h0]⟩
        simp [hu, h0]
      · simp only [h0, Bool.false_eq_true, if_false]
        rcases hpr : persistRecs failAt
            (mkFileAsset st db user_id bucket key filename size_bytes
              (hash c) (mimeOf c)).id
            (generate_recommendations
              (mkFileAsset st db user_id bucket key filename size_bytes
                (hash c) (mimeOf c))) 1
            { db with
              assets := db.assets ++
                [mkFileAsset st db user_id bucket key filename size_bytes
                  (hash c) (mimeOf c)],
              nextId := db.nextId + 1 } with e | db2
        · obtain ⟨etag, edb⟩ := e
          obtain ⟨hetag, -, -⟩ := persistRecs_error_state _ _ _ _ _ hpr
          subst hetag
          have hfail : ∃ j, j < (generate_recommendations
              (mkFileAsset st db user_id bucket key filename size_bytes
                (hash c) (mimeOf c))).length ∧ failAt (1 + j) = true := by
            have hno := (persistRecs_ok_iff
              (generate_recommendations
                (mkFileAsset st db user_id bucket key filename size_bytes
                  (hash c) (mimeOf c))) 1
              { db with
                assets := db.assets ++
                  [mkFileAsset st db user_id bucket key filename size_bytes
                    (hash c) (mimeOf c)],
                nextId := db.nextId + 1 }).not.mp (by rw [hpr]; simp)
            push_neg at hno
            obtain ⟨j, hj, hval⟩ := hno
            exact ⟨j, hj, by simpa using hval⟩
          refine ⟨by simp [hu], by simp [hu], ?_, ?_⟩
          · constructor
            · intro _
              exact ⟨hu, c, rfl, Or.inr hfail⟩
            · intro _
              exact ⟨edb, rfl⟩
          · constructor
            · rintro ⟨db', res, hcontra⟩
              simp at hcontra
            · rintro ⟨-, c', hc', -, hall⟩
              obtain rfl : c' = c := by
                injection hc' with h
                exact h.symm
              obtain ⟨j, hj, hval⟩ := hfail
              have hjf := hall j hj
              rw [hjf] at hval
              cases hval
        · have hall := (persistRecs_ok_iff
            (generate_recommendations
              (mkFileAsset st db user_id bucket key filename size_bytes
                (hash c) (mimeOf c))) 1
            { db with
              assets := db.assets ++
                [mkFileAsset st db user_id bucket key filename size_bytes
                  (hash c) (mimeOf c)],
              nextId := db.nextId + 1 }).mp ⟨db2, hpr⟩
          refine ⟨by simp [hu], by simp [hu], ?_, ?_⟩
          · constructor
            · rintro ⟨db', hdb'⟩
              simp at hdb'
            · rintro ⟨-, c', hc', hbad⟩
              obtain rfl : c' = c := by
                injection hc' with h
                exact h.symm
              rcases hbad with hbad | ⟨j, hj, hval⟩
              · exact hbad.elim
              · have hjf := hall j hj
                rw [hjf] at hval
                cases hval
          · constructor
            · intro _
              exact ⟨hu, c, rfl, trivial, hall⟩
            · intro _
              exact ⟨db2, _, rfl⟩
  · unfold analyze_file
    rw [if_neg hu]
    refine ⟨by simp [hu], by simp [hu], by simp [hu], by simp [hu]⟩

/-- Counterexample to claim C2: the `FileAsset` row and its `Recommendation`
rows are separate writes with no transaction, so when the first recommendation
write fails the pipeline raises `persistenceError` while the already-committed
`FileAsset` row stays in the store and is found by a duplicate lookup from
another owner. -/
theorem persistence_not_atomic_counterexample :
    ∃ db',
      analyze_file (fun _ => "h") (fun _ => "m") ⟨"e", 0, 0⟩ [1, 2] (some [])
        (fun i => i == 1) 1 "b" "k" "f.bin" (11 * 2 ^ 20) ⟨[], [], 1⟩ =
        .error (.persistenceError, db') ∧
      db'.assets ≠ [] ∧
      findDuplicate db'.assets "h" 2 ≠ none := by
  refine ⟨{ assets := [] ++
              [mkFileAsset ⟨"e", 0, 0⟩ ⟨[], [], 1⟩ 1 "b" "k" "f.bin"
                (11 * 2 ^ 20) "h" "m"],
            recs := [],
            nextId := 2 }, ?_, by simp, ?_⟩
  · unfold analyze_file
    norm_num [mkFileAsset, findDuplicate, generate_recommendations,
      FileAsset.size_mb, pyTruthyStr, persistRecs,
      show strContains "m" "video" = false from by decide,
      show strContains "m" "audio" = false from by decide]
  · simp [findDuplicate, mkFileAsset, List.find?]

/-- Claim C2 (amended): on any persistence failure the pipeline raises
`persistenceError`; a failure of the `FileAsset` write itself leaves the store
unchanged, but a failure of a later `Recommendation` write leaves the new
`FileAsset` row (and earlier recommendation rows) committed — the store differs
from the initial one by at most that one new row. -/
theorem persistence_partial_writes (hash mimeOf : List ℕ → String)
    (st : Settings) (users : List ℕ) (failAt : ℕ → Bool) (user_id : ℕ)
    (bucket key filename : String) (size_bytes : ℕ) (db : DB)
    (content : List ℕ) (e : AnalyzeError) (db' : DB)
    (h_user : user_id ∈ users)
    (herr : analyze_file hash mimeOf st users (some content) failAt user_id
      bucket key filename size_bytes db = .error (e, db')) :
    e = .persistenceError ∧
    (failAt 0 = true → db' = db) ∧
    (db'.assets = db.assets ∨
      db'.assets = db.assets ++
        [mkFileAsset st db user_id bucket key filename size_bytes
          (hash content) (mimeOf content)]) := by
  unfold analyze_file at herr
  rw [if_pos h_user] at herr
  by_cases h0 : failAt 0
  · simp only [h0, if_true, Except.error.injEq, Prod.mk.injEq] at herr
    obtain ⟨he, hdb⟩ := herr
    exact ⟨he.symm, fun _ => hdb.symm, Or.inl (by rw [hdb])⟩
  · simp only [h0, Bool.false_eq_true, if_false] at herr
    rcases hpr : persistRecs failAt
        (mkFileAsset st db user_id bucket key filename size_bytes
          (hash content) (mimeOf content)).id
        (generate_recommendations
          (mkFileAsset st db user_id bucket key filename size_bytes
            (hash content) (mimeOf content))) 1
        { db with
          assets := db.assets ++
            [mkFileAsset st db user_id bucket key filename size_bytes
              (hash content) (mimeOf content)],
          nextId := db.nextId + 1 } with e2 | db2
    · obtain ⟨etag, edb⟩ := e2
      rw [hpr] at herr
      simp only [Except.error.injEq, Prod.mk.injEq] at herr
      obtain ⟨hetag, hedb⟩ := herr
      obtain ⟨hpe, hassets, -⟩ := persistRecs_error_state _ _ _ _ _ hpr
      subst hetag
      subst hedb
      refine ⟨hpe, fun hf => absurd hf h0, Or.inr ?_⟩
      simpa using hassets
    · rw [hpr] at herr
      simp at herr

/-- Witness for the amended persistence claim at the counterexample's input. -/
theorem persistence_partial_writes_witness :
    AnalyzeError.persistenceError = AnalyzeError.persistenceError ∧
    (((0 : ℕ) == 1) = true →
      ({ assets := [] ++
            [mkFileAsset ⟨"e", 0, 0⟩ ⟨[], [], 1⟩ 1 "b" "k" "f.bin"
              (11 * 2 ^ 20) "h" "m"],
          recs := [],
          nextId := 2 } : DB) = ⟨[], [], 1⟩) ∧
    (([] ++
        [mkFileAsset ⟨"e", 0, 0⟩ ⟨[], [], 1⟩ 1 "b" "k" "f.bin"
          (11 * 2 ^ 20) "h" "m"] : List FileAsset) = [] ∨
      ([] ++
        [mkFileAsset ⟨"e", 0, 0⟩ ⟨[], [], 1⟩ 1 "b" "k" "f.bin"
          (11 * 2 ^ 20) "h" "m"] : List FileAsset) = [] ++
        [mkFileAsset ⟨"e", 0, 0⟩ ⟨[], [], 1⟩ 1 "b" "k" "f.bin"
          (11 * 2 ^ 20) "h" "m"]) :=
  persistence_partial_writes (fun _ => "h") (fun _ => "m") ⟨"e", 0, 0⟩ [1, 2]
    (fun i => i == 1) 1 "b" "k" "f.bin" (11 * 2 ^ 20) ⟨[], [], 1⟩ []
    .persistenceError
    { assets := [] ++
        [mkFileAsset ⟨"e", 0, 0⟩ ⟨[], [], 1⟩ 1 "b" "k" "f.bin"
          (11 * 2 ^ 20) "h" "m"],
      recs := [],
      nextId := 2 }
    (by decide)
    (by
      unfold analyze_file
      norm_num [mkFileAsset, findDuplicate, generate_recommendations,
        FileAsset.size_mb, pyTruthyStr, persistRecs,
        show strContains "m" "video" = false from by decide,
        show strContains "m" "audio" = false from by decide])
